import Mathlib

/-!
# Verification of the slideshow assembly engine (`src/utils/video_creator.py`)

Shallow embedding of `VideoCreator.create_slideshow`,
`VideoCreator.create_slideshow_with_beat` and `VideoCreator.add_text_overlay`,
together with the output-naming logic of `main.py`'s `_create_video`.

Durations (seconds) are modelled as rationals `ℚ`.  File-system facts that the
Python code queries (`os.path.exists`, whether `ImageClip(...)` raises, whether
`write_videofile` succeeds) are modelled as boolean fields of the input, so the
embedded functions are pure and total.
-/

namespace VideoCreator

/-- `VIDEO_CONFIG["duration_per_image"]` from `src/config.py` (the value `5`). -/
def VIDEO_CONFIG_duration_per_image : ℚ := 5

/-- `OUTPUT_VIDEOS` directory from `src/config.py` (`.../output/videos`);
the concrete prefix is irrelevant to the claims, only that it is fixed. -/
def OUTPUT_VIDEOS : String := "output/videos"

/-- `os.path.join(dir, name)` for a relative `name` on POSIX. -/
def pathJoin (dir name : String) : String := dir ++ "/" ++ name

/-- `os.path.basename`: the part of the path after the last `/`
(for paths without a trailing slash, the only case that occurs here). -/
def basename (p : String) : String :=
  String.mk ((p.toList.reverse.takeWhile (fun c => c ≠ '/')).reverse)

/-- The root part of `os.path.splitext(name)`: everything before the last dot,
except that leading dots of the name never count as an extension separator
(so `".bashrc"` has no extension, as in CPython's `posixpath.splitext`). -/
def splitextRoot (name : String) : String :=
  let cs := name.toList
  let lead := cs.takeWhile (fun c => c = '.')
  let rest := cs.drop lead.length
  if rest.contains '.' then
    let extLen := (rest.reverse.takeWhile (fun c => c ≠ '.')).length
    String.mk (lead ++ rest.take (rest.length - extLen - 1))
  else name

/-- Python's `str.endswith`. -/
def endswith (s suffix : String) : Bool := suffix.data.isSuffixOf s.data

/-- The `duration_per_image` argument after the `None` default is applied:
either the string `"auto"` or a numeric value (seconds). -/
inductive DurationSetting
  | auto
  | fixed (d : ℚ)
deriving DecidableEq, Repr

/-- One entry of the `image_paths` argument, together with the file-system
facts the code queries about it: `onDisk` is `os.path.exists(image_path)`
(line 72), `loadOk` is whether `ImageClip(image_path)` succeeds (line 78). -/
structure ImageInput where
  path : String
  onDisk : Bool
  loadOk : Bool
deriving DecidableEq, Repr

/-- An image both present on disk and loadable: exactly the images that
survive the two `continue`-guarded skips of lines 72-95. -/
def usableImage (im : ImageInput) : Bool := im.onDisk && im.loadOk

/-- The full argument/environment record of one `create_slideshow` call.
`audioOnDisk` is `os.path.exists(audio_path)` (line 32), `audioDuration` is
`AudioFileClip(audio_path).duration` (line 54), `writeOk` is whether
`write_videofile` (line 120) succeeds. -/
structure SlideshowArgs where
  imagePaths : List ImageInput
  audioPath : String
  audioOnDisk : Bool
  audioDuration : ℚ
  outputFilename : Option String
  durationPerImage : Option DurationSetting
  transitionDuration : ℚ
  targetResolution : Option (Nat × Nat)
  writeOk : Bool
deriving DecidableEq, Repr

/-- A `VisualClip` of the assembled track: source path, assigned duration,
and the resolution it was resized to (lines 78-90). -/
structure VisualClip where
  source : String
  duration : ℚ
  resizedTo : Option (Nat × Nat)
deriving DecidableEq, Repr

/-- The observable result of a successful run: output path and the durations
of the bound video and audio after reconciliation, plus the clip list. -/
structure SlideResult where
  outputPath : String
  videoDuration : ℚ
  audioDuration : ℚ
  clips : List VisualClip
deriving DecidableEq, Repr

/-- The two errors raised before the `try` block (lines 29-33): the
`ValueError` for an empty image list (spec: `EmptyInputError`) and the
`FileNotFoundError` for a missing audio file (spec: `MissingAudioError`).
These propagate to the caller. -/
inductive ArgError
  | emptyInput
  | missingAudio
deriving DecidableEq, Repr

/-- Errors raised inside the `try` block; they are caught by the
`except Exception` handler (line 137) and turned into a `None` return:
the `ValueError` for zero loaded images (line 98, spec:
`NoUsableAssetsError`) and a failure of `write_videofile` (line 120). -/
inductive CoreError
  | noUsableAssets
  | writeFailed
deriving DecidableEq, Repr

/-- Lines 71-95: each image is independently checked for existence and
loaded; missing or unloadable images are skipped (`continue`), the rest
become clips of duration `d`, resized when a target resolution is given,
in input order. -/
def loadClips (imgs : List ImageInput) (d : ℚ) (res : Option (Nat × Nat)) :
    List VisualClip :=
  (imgs.filter usableImage).map (fun im => ⟨im.path, d, res⟩)

/-- Line 59: the `"auto"` policy divides the audio duration by
`len(image_paths)` — the length of the *supplied* path list, counted before
any missing image is skipped. -/
def resolveDuration (s : DurationSetting) (audioDuration : ℚ) (numPaths : Nat) : ℚ :=
  match s with
  | .auto => audioDuration / numPaths
  | .fixed d => d

/-- The total duration of the concatenated visual track (line 102):
the sum of the clip durations. -/
def visualTotal (clips : List VisualClip) : ℚ :=
  (clips.map VisualClip.duration).sum

/-- Lines 107-116: if the video is longer than the audio it is cut to the
audio duration (`subclip(0, audio_duration)`, line 110); then the audio is
cut to the (possibly already truncated) video duration
(`subclip(0, video_clip.duration)`, line 113).  Returns
(bound video duration, bound audio duration). -/
def reconcile (videoDuration audioDuration : ℚ) : ℚ × ℚ :=
  let v := if videoDuration > audioDuration then audioDuration else videoDuration
  (v, v)

/-- The body of the `try` block (lines 50-135), after the audio has been
loaded and the per-image duration `d` resolved: build the clips, fail with
`noUsableAssets` if none loaded, reconcile durations, write the file. -/
def create_slideshow_core (a : SlideshowArgs) (outputPath : String) (d : ℚ) :
    Except CoreError SlideResult :=
  let clips := loadClips a.imagePaths d a.targetResolution
  if clips.isEmpty then
    Except.error CoreError.noUsableAssets
  else
    let p := reconcile (visualTotal clips) a.audioDuration
    if a.writeOk then
      Except.ok ⟨outputPath, p.1, p.2, clips⟩
    else
      Except.error CoreError.writeFailed

/-- Lines 39-41: the default output filename when none is supplied —
the audio base name plus the fixed suffix `"_slideshow.mp4"`. -/
def create_slideshow_default_name (audioPath : String) : String :=
  splitextRoot (basename audioPath) ++ "_slideshow.mp4"

/-- `VideoCreator.create_slideshow` (lines 15-152).  The two checks before
the `try` raise to the caller; every exception inside the `try` is caught
(line 137) and the function returns `None` — modelled as `.ok none`.
A successful run returns the output path and bound durations. -/
def create_slideshow (a : SlideshowArgs) : Except ArgError (Option SlideResult) :=
  if a.imagePaths.isEmpty then
    Except.error ArgError.emptyInput
  else if !a.audioOnDisk then
    Except.error ArgError.missingAudio
  else
    let setting :=
      a.durationPerImage.getD (DurationSetting.fixed VIDEO_CONFIG_duration_per_image)
    let outputFilename := a.outputFilename.getD (create_slideshow_default_name a.audioPath)
    let outputPath := pathJoin OUTPUT_VIDEOS outputFilename
    let d := resolveDuration setting a.audioDuration a.imagePaths.length
    Except.ok (create_slideshow_core a outputPath d).toOption

/-- Observation: the bound video duration of a run, when it succeeded. -/
def resultVideoDuration : Except ArgError (Option SlideResult) → Option ℚ
  | Except.ok (some r) => some r.videoDuration
  | _ => none

/-- Observation: the bound audio duration of a run, when it succeeded. -/
def resultAudioDuration : Except ArgError (Option SlideResult) → Option ℚ
  | Except.ok (some r) => some r.audioDuration
  | _ => none

/-- Observation: the clip list of a run, when it succeeded (else `[]`). -/
def resultClips : Except ArgError (Option SlideResult) → List VisualClip
  | Except.ok (some r) => r.clips
  | _ => []

/-- Observation: the output path of a run, when it succeeded. -/
def resultOutputPath : Except ArgError (Option SlideResult) → Option String
  | Except.ok (some r) => some r.outputPath
  | _ => none

/-! ## Beat-sync duration (`create_slideshow_with_beat`, lines 154-201) -/

/-- `np.diff`: consecutive differences of the beat timestamps. -/
def diffs : List ℚ → List ℚ
  | a :: b :: rest => (b - a) :: diffs (b :: rest)
  | _ => []

/-- The mean of a list of rationals (`np.mean`); `0` on the empty list,
which is never reached where it is used (the guard requires ≥ 2 beats). -/
def mean (l : List ℚ) : ℚ := l.sum / l.length

/-- Lines 176-185: with more than one detected beat the per-image duration
is the mean beat interval times 2, clamped into `[1, 8]`
(`max(1.0, min(8.0, avg_beat_interval * 2))`); otherwise the default `4.0`. -/
def beatDuration (beat_times : List ℚ) : ℚ :=
  if beat_times.length > 1 then
    let avg_beat_interval := mean (diffs beat_times)
    max 1 (min 8 (avg_beat_interval * 2))
  else 4

/-- Outcome of the `librosa` analysis attempt (lines 162-194):
it yields beat timestamps, or the import fails (`ImportError`),
or the analysis raises some other exception. -/
inductive BeatAnalysis
  | ok (beat_times : List ℚ)
  | unavailable
  | failed
deriving DecidableEq, Repr

/-- The per-image duration `create_slideshow_with_beat` settles on:
the beat-derived estimate when analysis produced timestamps, the fixed
default `4.0` on `ImportError` (line 190) or any other failure (line 194). -/
def beatDurationOf : BeatAnalysis → ℚ
  | BeatAnalysis.ok ts => beatDuration ts
  | BeatAnalysis.unavailable => 4
  | BeatAnalysis.failed => 4

/-- `create_slideshow_with_beat` (lines 154-201): resolve the duration from
the beat analysis and delegate to `create_slideshow` with it as the fixed
`duration_per_image`. -/
def create_slideshow_with_beat (analysis : BeatAnalysis) (a : SlideshowArgs) :
    Except ArgError (Option SlideResult) :=
  create_slideshow
    { a with durationPerImage := some (DurationSetting.fixed (beatDurationOf analysis)) }

/-! ## Caption overlay (`add_text_overlay`, lines 203-318) -/

/-- One entry of `text_list`: a dict whose keys are read with `.get` and
defaults (lines 239-241), so each field is optional.  `renderOk` records
whether the `TextClip` construction (lines 251-282, both font branches)
succeeds; on failure the segment is skipped (line 282). -/
structure TextSegmentInput where
  text : Option String
  start_time : Option ℚ
  duration : Option ℚ
  renderOk : Bool
deriving DecidableEq, Repr

/-- A rendered caption clip: text, start, effective (clamped) duration. -/
structure TextClipR where
  text : String
  start : ℚ
  duration : ℚ
deriving DecidableEq, Repr

/-- Lines 238-282: per segment — apply the `.get` defaults (missing text is
`""`, missing start is `0`, missing duration is the remainder of the video),
skip the segment when `start_time >= video.duration` (line 244), clamp the
duration to `min(duration, video.duration - start_time)` (line 248), then
render (skipping on render failure). -/
def buildTextClips (videoDuration : ℚ) (l : List TextSegmentInput) :
    List TextClipR :=
  l.filterMap (fun ti =>
    let text := ti.text.getD ""
    let start := ti.start_time.getD 0
    let dur := ti.duration.getD (videoDuration - start)
    if start ≥ videoDuration then none
    else
      let dur := min dur (videoDuration - start)
      if ti.renderOk then some ⟨text, start, dur⟩ else none)

/-- The error raised by `add_text_overlay` before its `try` block
(line 213): `FileNotFoundError` when the video path does not resolve. -/
inductive OverlayError
  | videoMissing
deriving DecidableEq, Repr

/-- Lines 220-222: the default output filename of `add_text_overlay`. -/
def add_text_overlay_default_name (videoPath : String) : String :=
  splitextRoot (basename videoPath) ++ "_with_text.mp4"

/-- `add_text_overlay` (lines 203-318).  `videoOnDisk` models
`os.path.exists(video_path)`, `videoDuration` the loaded clip's duration,
`writeOk` whether `write_videofile` (line 290) succeeds.  An empty
`text_list` returns the original path at once (line 217); if no text clip
renders, the original path is returned (line 301); an exception inside the
`try` is caught (line 311) and yields `None` (`.ok none`). -/
def add_text_overlay (videoOnDisk : Bool) (videoPath : String)
    (videoDuration : ℚ) (text_list : List TextSegmentInput)
    (outputFilename : Option String) (writeOk : Bool) :
    Except OverlayError (Option String) :=
  if !videoOnDisk then
    Except.error OverlayError.videoMissing
  else if text_list.isEmpty then
    Except.ok (some videoPath)
  else
    let name := outputFilename.getD (add_text_overlay_default_name videoPath)
    let outputPath := pathJoin OUTPUT_VIDEOS name
    let text_clips := buildTextClips videoDuration text_list
    if text_clips.isEmpty then
      Except.ok (some videoPath)
    else if writeOk then
      Except.ok (some outputPath)
    else
      Except.ok none

end VideoCreator

namespace MainModule

/-- Lines 351-359 of `src/main.py` (`_create_video`): when no output name is
supplied, the name is the audio base name, `"_slideshow_"`, a
`%Y%m%d_%H%M%S` timestamp and `".mp4"`; then (either way) `".mp4"` is
appended when the name does not already end with it. -/
def create_video_output_name (audioPath timestamp : String)
    (outputName : Option String) : String :=
  let name :=
    match outputName with
    | none =>
        VideoCreator.splitextRoot (VideoCreator.basename audioPath)
          ++ "_slideshow_" ++ timestamp ++ ".mp4"
    | some n => n
  if VideoCreator.endswith name ".mp4" then name else name ++ ".mp4"

end MainModule

namespace Handles

/-!
## Resource handles of one `create_slideshow` run

A run that reaches `write_videofile` has opened: the audio reader
(`AudioFileClip`, line 53), one handle per successfully loaded image
(`ImageClip`, line 78) and the concatenated video clip (line 102).
The success path closes `[video_clip, audio_clip] + image_clips`
(lines 128-132); the `except` path closes `audio_clip` (line 141) and the
`image_clips` (lines 147-148) — and nothing else.
-/

/-- A media handle opened during assembly: the audio reader, the `i`-th
loaded image clip, or the concatenated video clip. -/
inductive Handle
  | audioH
  | imageH (i : Nat)
  | videoH
deriving DecidableEq, Repr

/-- The handles open after assembly reaches `write_videofile`, for a run
that loaded `n` images: audio (line 53), the `n` image clips (line 78),
the concatenated video clip (line 102). -/
def openedHandles (n : Nat) : List Handle :=
  Handle.audioH :: (List.range n).map Handle.imageH ++ [Handle.videoH]

/-- The handles the success path closes (lines 128-132):
`for clip in [video_clip, audio_clip] + image_clips: clip.close()`. -/
def successCloses (n : Nat) : List Handle :=
  [Handle.videoH, Handle.audioH] ++ (List.range n).map Handle.imageH

/-- The handles the `except` path closes (lines 140-150):
`audio_clip.close()` then `for clip in image_clips: clip.close()` —
the concatenated `video_clip` is not in the list. -/
def exceptCloses (n : Nat) : List Handle :=
  Handle.audioH :: (List.range n).map Handle.imageH

/-- The handles still open when `create_slideshow` returns, for a run with
`n` loaded images in which `write_videofile` either succeeds
(`writeOk = true`, success path) or raises (`except` path). -/
def openAfterRun (n : Nat) (writeOk : Bool) : List Handle :=
  (openedHandles n).filter
    (fun h => !(if writeOk then successCloses n else exceptCloses n).contains h)

end Handles

/-! ## Helper lemmas -/

namespace VideoCreator

lemma visualTotal_loadClips (imgs : List ImageInput) (d : ℚ)
    (res : Option (Nat × Nat)) :
    visualTotal (loadClips imgs d res) = ((imgs.filter usableImage).length : ℚ) * d := by
  unfold visualTotal loadClips
  rw [List.map_map]
  have hconst : (VisualClip.duration ∘ fun im : ImageInput =>
      (⟨im.path, d, res⟩ : VisualClip)) = fun _ => d := rfl
  rw [hconst, List.map_const', List.sum_replicate, nsmul_eq_mul]

lemma length_loadClips (imgs : List ImageInput) (d : ℚ) (res : Option (Nat × Nat)) :
    (loadClips imgs d res).length = (imgs.filter usableImage).length := by
  unfold loadClips
  rw [List.length_map]

lemma create_slideshow_core_ok (a : SlideshowArgs) (out : String) (d : ℚ)
    (r : SlideResult) (h : create_slideshow_core a out d = Except.ok r) :
    r.clips = loadClips a.imagePaths d a.targetResolution := by
  simp only [create_slideshow_core] at h
  split at h
  · exact absurd h (by simp)
  · split at h
    · cases h
      rfl
    · exact absurd h (by simp)

end VideoCreator

/-! ## Claim theorems -/

namespace VideoCreator

/-- **C1**: the reconciliation step of `create_slideshow` (lines 107-116)
binds video and audio at exactly `min(visual_total, audio_duration)`;
the video side is shortened precisely when it was the longer one, the audio
side precisely when it was the longer one (so when the two differ exactly
one side is shortened), and neither side is ever extended. -/
theorem C1_reconcile_min_truncation (v a : ℚ) :
    (reconcile v a).1 = min v a ∧
    (reconcile v a).2 = min v a ∧
    ((reconcile v a).1 < v ↔ a < v) ∧
    ((reconcile v a).2 < a ↔ v < a) ∧
    (reconcile v a).1 ≤ v ∧ (reconcile v a).2 ≤ a := by
  unfold reconcile
  rcases le_or_lt v a with h | h
  · have hif : ¬ (v > a) := not_lt.mpr h
    simp only [if_neg hif]
    refine ⟨(min_eq_left h).symm, (min_eq_left h).symm, ?_, ?_, le_refl v, h⟩
    · exact iff_of_false (lt_irrefl v) (not_lt.mpr h)
    · trivial
  · simp only [if_pos h]
    refine ⟨(min_eq_right h.le).symm, (min_eq_right h.le).symm, ?_, ?_, h.le, le_refl a⟩
    · trivial
    · exact iff_of_false (lt_irrefl a) (asymm h)

/-- Witness for C1 at the spec's scenario (visual 10s, audio 8s):
the bound duration is 8 and only the visual side is shortened. -/
theorem C1_reconcile_min_truncation_witness :
    (reconcile 10 8).1 = min 10 8 ∧
    (reconcile 10 8).2 = min 10 8 ∧
    ((reconcile 10 8).1 < 10 ↔ (8:ℚ) < 10) ∧
    ((reconcile 10 8).2 < 8 ↔ (10:ℚ) < 8) ∧
    (reconcile 10 8).1 ≤ 10 ∧ (reconcile 10 8).2 ≤ 8 :=
  C1_reconcile_min_truncation 10 8

/-- A two-element image list whose first file is missing from disk
(`os.path.exists` is false) while the second loads fine. -/
def c2missingImgs : List ImageInput :=
  [⟨"a.jpg", false, true⟩, ⟨"b.jpg", true, true⟩]

/-- An `"auto"`-policy call on `c2missingImgs` with 4-second audio. -/
def c2missingEx : SlideshowArgs :=
  { imagePaths := c2missingImgs, audioPath := "song.mp3", audioOnDisk := true,
    audioDuration := 4, outputFilename := none,
    durationPerImage := some DurationSetting.auto,
    transitionDuration := 1, targetResolution := none, writeOk := true }

/-- **C2 counterexample**: with `n = 2` supplied image paths, audio of
duration `A = 4` and the `"auto"` policy, but the first image file missing,
the run succeeds with reconciled duration `2` (one clip of `A/n = 2`),
not `A = 4` as the claim states: line 59 divides by `len(image_paths)`
before missing images are skipped. -/
theorem C2_counterexample :
    resultVideoDuration (create_slideshow c2missingEx) = some 2 ∧
    c2missingEx.audioDuration = 4 ∧
    resultVideoDuration (create_slideshow c2missingEx)
      ≠ some c2missingEx.audioDuration := by
  have hrun : resultVideoDuration (create_slideshow c2missingEx) = some 2 := by
    norm_num [create_slideshow, create_slideshow_core, c2missingEx, c2missingImgs,
      loadClips, usableImage, visualTotal, reconcile, resolveDuration,
      resultVideoDuration, Except.toOption, VIDEO_CONFIG_duration_per_image]
  refine ⟨hrun, rfl, ?_⟩
  rw [hrun]
  intro hbad
  have : (2:ℚ) = 4 := Option.some.inj hbad
  norm_num at this

/-- **C2 amended**: under the `"auto"` policy every assembled clip of any
run — missing images or not — gets duration `A / n` where `n` is the number
of *supplied* image paths (line 59 divides before the skips); and when
every supplied image loads successfully and the write succeeds, the
reconciled video and audio durations both equal `A` exactly. -/
theorem C2_auto_division_amended (a : SlideshowArgs)
    (hauto : a.durationPerImage = some DurationSetting.auto)
    (hne : a.imagePaths ≠ [])
    (haud : a.audioOnDisk = true) :
    (∀ c ∈ resultClips (create_slideshow a),
      c.duration = a.audioDuration / a.imagePaths.length) ∧
    ((∀ im ∈ a.imagePaths, usableImage im = true) → a.writeOk = true →
      resultVideoDuration (create_slideshow a) = some a.audioDuration ∧
      resultAudioDuration (create_slideshow a) = some a.audioDuration) := by
  have hE : a.imagePaths.isEmpty = false := List.isEmpty_eq_false.mpr hne
  set d : ℚ := a.audioDuration / a.imagePaths.length with hd
  have hrun0 : create_slideshow a
      = Except.ok (create_slideshow_core a
          (pathJoin OUTPUT_VIDEOS
            (a.outputFilename.getD (create_slideshow_default_name a.audioPath)))
          d).toOption := by
    simp only [create_slideshow, hE, haud, hauto, Bool.false_eq_true, if_false,
      Bool.not_true, Option.getD_some, resolveDuration]
  constructor
  · intro c hc
    rw [hrun0] at hc
    cases hcore : create_slideshow_core a
        (pathJoin OUTPUT_VIDEOS
          (a.outputFilename.getD (create_slideshow_default_name a.audioPath)))
        d with
    | error e =>
        rw [hcore] at hc
        simp [resultClips, Except.toOption] at hc
    | ok r =>
        rw [hcore] at hc
        have hclips := create_slideshow_core_ok a _ d r hcore
        simp only [Except.toOption, resultClips] at hc
        rw [hclips] at hc
        unfold loadClips at hc
        rcases List.mem_map.mp hc with ⟨im, _, rfl⟩
        rfl
  · intro hall hw
    have hfil : a.imagePaths.filter usableImage = a.imagePaths :=
      List.filter_eq_self.mpr hall
    have hn0 : (a.imagePaths.length : ℚ) ≠ 0 := by
      rw [Nat.cast_ne_zero]
      exact fun h0 => hne (List.length_eq_zero.mp h0)
    have hsum : visualTotal (loadClips a.imagePaths d a.targetResolution)
        = a.audioDuration := by
      rw [visualTotal_loadClips, hfil, hd, mul_comm]
      exact div_mul_cancel₀ a.audioDuration hn0
    have hCE : (loadClips a.imagePaths d a.targetResolution).isEmpty = false := by
      unfold loadClips
      rw [hfil]
      simp [List.isEmpty_eq_false, hne]
    have hrec : reconcile a.audioDuration a.audioDuration
        = (a.audioDuration, a.audioDuration) := by
      unfold reconcile
      rw [if_neg (lt_irrefl a.audioDuration)]
    have hcore : ∀ out, create_slideshow_core a out d
        = Except.ok ⟨out, a.audioDuration, a.audioDuration,
            loadClips a.imagePaths d a.targetResolution⟩ := by
      intro out
      simp only [create_slideshow_core, hCE, Bool.false_eq_true, if_false,
        hsum, hrec, hw, if_true]
    have hrun : create_slideshow a
        = Except.ok (some ⟨pathJoin OUTPUT_VIDEOS
              (a.outputFilename.getD (create_slideshow_default_name a.audioPath)),
            a.audioDuration, a.audioDuration,
            loadClips a.imagePaths d a.targetResolution⟩) := by
      rw [hrun0, hcore]
      rfl
    exact ⟨by rw [hrun]; rfl, by rw [hrun]; rfl⟩

/-- A 3-image `"auto"`-policy call, all images loadable, 9-second audio
(the spec's scenario: each clip gets 3 s, final duration 9 s). -/
def c2autoEx : SlideshowArgs :=
  { imagePaths := [⟨"a.jpg", true, true⟩, ⟨"b.jpg", true, true⟩,
      ⟨"c.jpg", true, true⟩],
    audioPath := "song.mp3", audioOnDisk := true, audioDuration := 9,
    outputFilename := none, durationPerImage := some DurationSetting.auto,
    transitionDuration := 1, targetResolution := none, writeOk := true }

/-- Witness for the amended C2 at the spec's scenario (3 images, 9 s audio). -/
theorem C2_auto_division_amended_witness :
    resultVideoDuration (create_slideshow c2autoEx) = some (9:ℚ) :=
  ((C2_auto_division_amended c2autoEx rfl (by decide) rfl).2 (by decide) rfl).1

/-- A two-element image list whose first file is missing from disk. -/
def c3imgs : List ImageInput :=
  [⟨"pic1.png", false, true⟩, ⟨"pic2.png", true, true⟩]

/-- **C3 counterexample**: a sequence of 2 image paths with fixed
`duration_per_image = 2` whose first file is missing assembles to a visual
track of duration `2` (one clip), not `count(images) * d = 4`: missing
images are skipped (lines 72-74), so the pre-reconciliation total is
(number of loaded images) · d. -/
theorem C3_counterexample :
    visualTotal (loadClips c3imgs 2 none) = 2 ∧
    (c3imgs.length : ℚ) * 2 = 4 ∧
    visualTotal (loadClips c3imgs 2 none) ≠ (c3imgs.length : ℚ) * 2 := by
  have h1 : visualTotal (loadClips c3imgs 2 none) = 2 := by
    norm_num [visualTotal, loadClips, c3imgs, usableImage]
  have h2 : (c3imgs.length : ℚ) * 2 = 4 := by
    norm_num [c3imgs]
  refine ⟨h1, h2, ?_⟩
  rw [h1, h2]
  norm_num

/-- **C3 amended**: with a fixed numeric duration `d`, every assembled clip
gets duration `d`, the pre-reconciliation track duration is
(number of successfully loaded images) · `d` — which is `count(images) · d`
whenever every image loads — the clips are exactly the loadable images in
the caller-supplied order (no reordering, no deduplication), and the clip
sources are a subsequence of the supplied paths. -/
theorem C3_fixed_duration_amended (imgs : List ImageInput) (d : ℚ)
    (res : Option (Nat × Nat)) :
    (∀ c ∈ loadClips imgs d res, c.duration = d) ∧
    visualTotal (loadClips imgs d res) = ((imgs.filter usableImage).length : ℚ) * d ∧
    (loadClips imgs d res).map VisualClip.source
      = (imgs.filter usableImage).map ImageInput.path ∧
    ((loadClips imgs d res).map VisualClip.source).Sublist
      (imgs.map ImageInput.path) := by
  refine ⟨?_, visualTotal_loadClips imgs d res, ?_, ?_⟩
  · intro c hc
    unfold loadClips at hc
    rcases List.mem_map.mp hc with ⟨im, _, rfl⟩
    rfl
  · unfold loadClips
    rw [List.map_map]
    rfl
  · unfold loadClips
    rw [List.map_map]
    have hcomp : (VisualClip.source ∘ fun im : ImageInput =>
        (⟨im.path, d, res⟩ : VisualClip)) = ImageInput.path := rfl
    rw [hcomp]
    exact List.Sublist.map ImageInput.path (List.filter_sublist imgs)

/-- Witness for the amended C3: the loaded clip of `c3imgs` has the
assigned fixed duration `2`. -/
theorem C3_fixed_duration_amended_witness :
    VisualClip.duration ⟨"pic2.png", 2, none⟩ = 2 :=
  (C3_fixed_duration_amended c3imgs 2 none).1 ⟨"pic2.png", 2, none⟩ (by decide)

/-- **C4**: `create_slideshow` raises the empty-input error exactly when
the image list is empty (line 29, checked before anything else); the core
raises the no-usable-assets error exactly when zero images survive the
per-item skips (line 98); and every usable image contributes a clip — the
clip count equals the count of usable images, so a missing image is a
per-item skip, not a pipeline failure. -/
theorem C4_empty_and_no_usable_assets (a : SlideshowArgs) (out : String) (d : ℚ) :
    (create_slideshow a = Except.error ArgError.emptyInput ↔ a.imagePaths = []) ∧
    (create_slideshow_core a out d = Except.error CoreError.noUsableAssets ↔
      a.imagePaths.filter usableImage = []) ∧
    (loadClips a.imagePaths d a.targetResolution).length
      = (a.imagePaths.filter usableImage).length := by
  refine ⟨?_, ?_, length_loadClips _ _ _⟩
  · cases hE : a.imagePaths.isEmpty
    · apply iff_of_false
      · cases hA : a.audioOnDisk <;>
          simp [create_slideshow, hE, hA]
      · exact List.isEmpty_eq_false.mp hE
    · apply iff_of_true
      · simp [create_slideshow, hE]
      · exact List.isEmpty_iff.mp hE
  · rcases hF : a.imagePaths.filter usableImage with _ | ⟨x, xs⟩
    · apply iff_of_true _ rfl
      simp [create_slideshow_core, loadClips, hF]
    · apply iff_of_false
      · cases hW : a.writeOk <;>
          simp [create_slideshow_core, loadClips, hF, hW]
      · simp

/-- A call whose first image is missing and whose second is usable. -/
def c4args : SlideshowArgs :=
  { imagePaths := [⟨"m.jpg", false, true⟩, ⟨"ok.jpg", true, true⟩],
    audioPath := "song.mp3", audioOnDisk := true, audioDuration := 4,
    outputFilename := none, durationPerImage := none,
    transitionDuration := 1, targetResolution := none, writeOk := true }

/-- Witness for C4: with one missing and one usable image, exactly one
clip is assembled — the missing file is a per-item skip, not a failure. -/
theorem C4_empty_and_no_usable_assets_witness :
    (loadClips c4args.imagePaths 5 c4args.targetResolution).length
      = (c4args.imagePaths.filter usableImage).length :=
  (C4_empty_and_no_usable_assets c4args "out.mp4" 5).2.2

/-- **C10**: `transition_duration` is accepted but never read by
`create_slideshow`; two calls whose arguments differ only in it return the
same result. -/
theorem C10_transition_duration_unused (a : SlideshowArgs) (t u : ℚ) :
    create_slideshow { a with transitionDuration := t }
      = create_slideshow { a with transitionDuration := u } := by
  cases a
  rfl

/-- A caption segment that fits a 45-second video (start 40, duration 10). -/
def c6good : TextSegmentInput := ⟨some "y", some 40, some 10, true⟩

/-- The spec's scenario segment: start 50, duration 10. -/
def c6bad : TextSegmentInput := ⟨some "x", some 50, some 10, true⟩

/-- **C6**: in `add_text_overlay`, a segment whose (defaulted) start time is
`≥` the video duration contributes no text clip and leaves the clips built
from the remaining segments unchanged (lines 244-246); a segment that
starts before the end and renders contributes exactly one clip whose
effective duration is `min(segment.duration, video.duration - start_time)`
(line 248), in position. -/
theorem C6_segment_skip_and_clamp (D : ℚ) (l1 l2 : List TextSegmentInput)
    (ti : TextSegmentInput) :
    (ti.start_time.getD 0 ≥ D →
      buildTextClips D (l1 ++ ti :: l2) = buildTextClips D (l1 ++ l2)) ∧
    (ti.start_time.getD 0 < D → ti.renderOk = true →
      buildTextClips D (l1 ++ ti :: l2)
        = buildTextClips D l1
          ++ ⟨ti.text.getD "", ti.start_time.getD 0,
               min (ti.duration.getD (D - ti.start_time.getD 0))
                 (D - ti.start_time.getD 0)⟩
          :: buildTextClips D l2) := by
  constructor
  · intro hge
    simp [buildTextClips, List.filterMap_append, List.filterMap_cons, hge]
  · intro hlt hrok
    have hnot : ¬ (ti.start_time.getD 0 ≥ D) := not_le.mpr hlt
    simp [buildTextClips, List.filterMap_append, List.filterMap_cons, hnot, hrok]

/-- Witness for C6 at the spec's scenario: on a 45-second video the segment
with start 50 is dropped and the in-range segment is unaffected. -/
theorem C6_segment_skip_and_clamp_witness :
    buildTextClips 45 ([c6good] ++ c6bad :: [])
      = buildTextClips 45 ([c6good] ++ []) :=
  (C6_segment_skip_and_clamp 45 [c6good] [] c6bad).1 (by norm_num [c6bad])

/-- A caption segment starting past the end of a 45-second video. -/
def c7late : TextSegmentInput := ⟨some "late", some 50, some 10, true⟩

/-- **C7**: `add_text_overlay` returns the original video path unchanged
when the segment list is empty (line 217), and likewise returns the
original path — a success, not a failure — when every segment was skipped
so that no text clip was built (lines 299-301). -/
theorem C7_no_segments_returns_original (vp : String) (D : ℚ)
    (l : List TextSegmentInput) (ofn : Option String) (w : Bool) :
    add_text_overlay true vp D [] ofn w = Except.ok (some vp) ∧
    (buildTextClips D l = [] →
      add_text_overlay true vp D l ofn w = Except.ok (some vp)) := by
  constructor
  · rfl
  · intro hskip
    rcases l with _ | ⟨x, xs⟩
    · rfl
    · simp [add_text_overlay, hskip]

/-- Witness for C7: a single out-of-range segment on a 45-second video —
nothing renders and the original path comes back as a success. -/
theorem C7_no_segments_returns_original_witness :
    add_text_overlay true "v.mp4" 45 [c7late] none true
      = Except.ok (some "v.mp4") :=
  (C7_no_segments_returns_original "v.mp4" 45 [c7late] none true).2
    (by norm_num [buildTextClips, List.filterMap_cons, c7late])

/-- **C8**: with more than one detected beat the per-image duration is the
mean beat interval times 2 clamped into `[1, 8]` (line 179), hence always
within those bounds; when beat analysis is unavailable (`ImportError`,
line 190) or fails (line 194) the fixed default `4.0` is used. -/
theorem C8_beat_duration_clamped (ts : List ℚ) (h : 1 < ts.length) :
    beatDuration ts = max 1 (min 8 (mean (diffs ts) * 2)) ∧
    1 ≤ beatDuration ts ∧ beatDuration ts ≤ 8 ∧
    beatDurationOf (BeatAnalysis.ok ts) = beatDuration ts ∧
    beatDurationOf BeatAnalysis.unavailable = 4 ∧
    beatDurationOf BeatAnalysis.failed = 4 := by
  have heq : beatDuration ts = max 1 (min 8 (mean (diffs ts) * 2)) := by
    simp only [beatDuration, if_pos h]
  refine ⟨heq, ?_, ?_, rfl, rfl, rfl⟩
  · rw [heq]
    exact le_max_left 1 _
  · rw [heq]
    apply max_le
    · norm_num
    · exact min_le_left 8 _

/-- Witness for C8 on the beat timestamps `[0, 2, 4]` (three beats). -/
theorem C8_beat_duration_clamped_witness :
    1 ≤ beatDuration [0, 2, 4] ∧ beatDuration [0, 2, 4] ≤ 8 :=
  ⟨(C8_beat_duration_clamped [0, 2, 4] (by norm_num)).2.1,
   (C8_beat_duration_clamped [0, 2, 4] (by norm_num)).2.2.1⟩

/-- A direct `create_slideshow` call with no output filename supplied. -/
def c9args : SlideshowArgs :=
  { imagePaths := [⟨"cover.jpg", true, true⟩], audioPath := "song.mp3",
    audioOnDisk := true, audioDuration := 5, outputFilename := none,
    durationPerImage := some (DurationSetting.fixed 5),
    transitionDuration := 1, targetResolution := none, writeOk := true }

/-- **C9 counterexample**: when no output filename is supplied,
`create_slideshow` itself (lines 39-41) derives the name from the audio
base name alone — `"song_slideshow.mp4"`, with no timestamp component; the
output path is a function of the arguments only, so a second run on the
same audio produces the identical path and the runs collide. -/
theorem C9_counterexample :
    create_slideshow_default_name "song.mp3" = "song_slideshow.mp4" ∧
    resultOutputPath (create_slideshow c9args)
      = some "output/videos/song_slideshow.mp4" := by
  have hname : create_slideshow_default_name "song.mp3" = "song_slideshow.mp4" := by
    decide
  have hrun : resultOutputPath (create_slideshow c9args)
      = some (pathJoin OUTPUT_VIDEOS (create_slideshow_default_name "song.mp3")) := by
    norm_num [create_slideshow, create_slideshow_core, c9args, loadClips,
      usableImage, visualTotal, reconcile, resolveDuration, resultOutputPath,
      Except.toOption]
  refine ⟨hname, ?_⟩
  rw [hrun, hname]
  decide

/-- Auxiliary: appending a suffix makes `endswith` true. -/
lemma endswith_append (x s : String) : endswith (x ++ s) s = true := by
  unfold endswith
  rw [String.data_append]
  exact List.isSuffixOf_iff_suffix.mpr (List.suffix_append _ _)

/-- **C9 amended**: the *orchestrator* (`main.py`'s `_create_video`,
lines 351-356) derives the default output name from the audio base name
plus a timestamp, so two runs with distinct timestamps cannot collide;
`create_slideshow`'s own default (lines 39-41) is the audio base name plus
the fixed suffix `"_slideshow.mp4"` with no timestamp, and direct calls
without a filename can collide across runs. -/
theorem C9_output_naming_amended (audio t1 t2 : String) (h : t1 ≠ t2) :
    MainModule.create_video_output_name audio t1 none
      ≠ MainModule.create_video_output_name audio t2 none ∧
    create_slideshow_default_name audio
      = splitextRoot (basename audio) ++ "_slideshow.mp4" := by
  refine ⟨?_, rfl⟩
  intro heq
  apply h
  simp only [MainModule.create_video_output_name, endswith_append, if_true] at heq
  have hdata := congrArg String.data heq
  rw [String.data_append, String.data_append,
    String.data_append, String.data_append] at hdata
  have h1 := List.append_cancel_right hdata
  have h2 := List.append_cancel_left h1
  exact String.ext h2

/-- Witness for the amended C9: two timestamps one second apart give two
distinct default output names for the same audio file. -/
theorem C9_output_naming_amended_witness :
    MainModule.create_video_output_name "song.mp3" "20260101_000000" none
      ≠ MainModule.create_video_output_name "song.mp3" "20260101_000001" none :=
  (C9_output_naming_amended "song.mp3" "20260101_000000" "20260101_000001"
    (by decide)).1

end VideoCreator

namespace Handles

/-- **C5**: the claim (every opened handle is released on every exit path)
fails on the `except` path.  For a run with one loaded image in which
`write_videofile` raises, the cleanup of lines 140-150 closes the audio and
image handles but leaves the concatenated video clip open, while the
success-path cleanup (lines 128-132) closes everything. -/
theorem C5_except_path_leaks_video_handle :
    openAfterRun 1 false = [Handle.videoH] ∧ openAfterRun 1 true = [] := by
  decide

end Handles
